import Mathlib

/-!
Shallow embedding of the homework-status Telegram bot
(`homework.py`, `exceptions.py`) and proofs about its behaviour.

Python values that flow through the program (JSON payloads, the
polling timestamp, dictionary fields) are modelled by `PyValue`;
exceptions are modelled by the `PyError` sum; fallible Python
functions become `Except PyError`-valued Lean functions.  External
effects (the HTTP GET, the Telegram send) enter a loop iteration as
explicit oracle inputs.
-/

set_option autoImplicit false

namespace HomeworkBot

/-- A Python runtime value as used by the bot: `None`, booleans,
integers, strings, lists and string-keyed dictionaries. -/
inductive PyValue where
  | null
  | bool (b : Bool)
  | int (n : Int)
  | str (s : String)
  | list (xs : List PyValue)
  | dict (xs : List (String × PyValue))

/-- Exceptions that the code of the bot can raise, with the message they carry.
The first three mirror `exceptions.py`; the rest are the built-in and
library exceptions used by `homework.py`. -/
inductive PyError where
  | emptyResponseFromAPI (msg : String)
  | badTokensException (msg : String)
  | badStatusException (msg : String)
  | typeError (msg : String)
  | keyError (msg : String)
  | connectionError (msg : String)
  | httpError (msg : String)
  | unboundLocalError (msg : String)
  | attributeError (msg : String)
  deriving DecidableEq, Repr

mutual

/-- Python `repr` of a value (as far as the bot can observe it:
strings are wrapped in single quotes, containers recurse). -/
def pyRepr : PyValue → String
  | PyValue.null => "None"
  | PyValue.bool true => "True"
  | PyValue.bool false => "False"
  | PyValue.int n => toString n
  | PyValue.str s => "\x27" ++ s ++ "\x27"
  | PyValue.list xs => "[" ++ pyReprList xs ++ "]"
  | PyValue.dict xs => "\x7b" ++ pyReprDict xs ++ "\x7d"

/-- Comma-separated `repr`s of the elements of a Python list. -/
def pyReprList : List PyValue → String
  | [] => ""
  | [x] => pyRepr x
  | x :: y :: xs => pyRepr x ++ ", " ++ pyReprList (y :: xs)

/-- Comma-separated `repr`s of the entries of a Python dict. -/
def pyReprDict : List (String × PyValue) → String
  | [] => ""
  | [(k, v)] => "\x27" ++ k ++ "\x27: " ++ pyRepr v
  | (k, v) :: y :: xs =>
      "\x27" ++ k ++ "\x27: " ++ pyRepr v ++ ", " ++ pyReprDict (y :: xs)

end

/-- Python `str()` of a value, as used by f-string interpolation. -/
def pyStr : PyValue → String
  | PyValue.str s => s
  | v => pyRepr v

/-- Python `str()` of an exception: the message it was built with,
except `KeyError`, whose `str()` is the `repr` of its argument. -/
def pyErrStr : PyError → String
  | PyError.emptyResponseFromAPI m => m
  | PyError.badTokensException m => m
  | PyError.badStatusException m => m
  | PyError.typeError m => m
  | PyError.keyError m => "\x27" ++ m ++ "\x27"
  | PyError.connectionError m => m
  | PyError.httpError m => m
  | PyError.unboundLocalError m => m
  | PyError.attributeError m => m

/-- Python `type(v)` rendered as in an f-string, e.g. `<class \x27dict\x27>`. -/
def pyTypeName : PyValue → String
  | PyValue.null => "<class \x27NoneType\x27>"
  | PyValue.bool _ => "<class \x27bool\x27>"
  | PyValue.int _ => "<class \x27int\x27>"
  | PyValue.str _ => "<class \x27str\x27>"
  | PyValue.list _ => "<class \x27list\x27>"
  | PyValue.dict _ => "<class \x27dict\x27>"

/-- First value bound to key `k` in a dict entry list (`d[k]` lookup,
`None` result distinguished from absence). -/
def pyGet (xs : List (String × PyValue)) (k : String) : Option PyValue :=
  match xs with
  | [] => Option.none
  | (k2, v) :: rest => if k2 = k then Option.some v else pyGet rest k

/-- Python `d.get(k)`: the value under `k`, or the `None` object when
the key is absent.  (So a stored `None` and a missing key coincide,
exactly as in `d.get(k) is None` checks.) -/
def pyGetOrNone (xs : List (String × PyValue)) (k : String) : PyValue :=
  (pyGet xs k).getD PyValue.null

/-- Python `v.get(k)` on a value known to be a dict; any non-dict maps
to `None` (that case is unreachable where the bot uses it, because
`check_response` has already established the dict shape). -/
def pyDictGet (v : PyValue) (k : String) : PyValue :=
  match v with
  | PyValue.dict xs => pyGetOrNone xs k
  | _ => PyValue.null

/-- `RETRY_PERIOD` from `homework.py`. -/
def RETRY_PERIOD : Nat := 600

/-- `ENDPOINT` from `homework.py`. -/
def ENDPOINT : String := "https://practicum.yandex.ru/api/user_api/homework_statuses/"

/-- `HOMEWORK_VERDICTS` from `homework.py`: status key to verdict sentence. -/
def HOMEWORK_VERDICTS : List (String × String) :=
  [("approved", "Работа проверена: ревьюеру всё понравилось. Ура!"),
   ("reviewing", "Работа взята на проверку ревьюером."),
   ("rejected", "Работа проверена: у ревьюера есть замечания.")]

/-- Python `x in HOMEWORK_VERDICTS`: dict membership tests the keys,
so only a string equal to one of the three keys is a member. -/
def inHomeworkVerdicts (v : PyValue) : Bool :=
  match v with
  | PyValue.str s => (HOMEWORK_VERDICTS.lookup s).isSome
  | _ => false

/-- `check_tokens` from `homework.py`: walks the three environment
variables and raises `BadTokensException` when any of them is `None`
(unset).  An environment variable that is set is a `some` string,
an unset one is `none`. -/
def check_tokens (practicumToken telegramToken telegramChatId : Option String) :
    Except PyError Unit :=
  let tokens := [practicumToken, telegramToken, telegramChatId]
  let check_value := tokens.all (fun token => token.isSome)
  if check_value then
    Except.ok ()
  else
    Except.error (PyError.badTokensException "Отсутствует переменная окружения")

/-- `send_message` from `homework.py`: attempts the Telegram send; a
`TelegramError` (the `Except.error` case of the attempted send) is
caught and logged, and the function returns `False`; on success it
returns `True`.  The argument is the outcome of `bot.send_message`. -/
def send_message (outcome : Except String Unit) : Bool :=
  match outcome with
  | Except.error _ => false
  | Except.ok _ => true

/-- The observable part of a `requests` HTTP response. -/
structure Response where
  status_code : Nat
  reason : String
  text : String
  json : PyValue

/-- `get_api_answer` from `homework.py`.  The argument `result` is the
outcome of `requests.get` (`Except.error` = the call raised
`requests.RequestException` with the given message).

Control flow of the source, including the `finally` block:
when `requests.get` raises, the `except` clause raises
`ConnectionError`, but the `finally` clause then reads the local
variable `response`, which was never assigned, so an
`UnboundLocalError` is raised and replaces the `ConnectionError`.
When `requests.get` returns, the `finally` clause raises `HTTPError`
for a non-200 status code and otherwise returns the decoded JSON. -/
def get_api_answer (timestamp : PyValue) (result : Except String Response) :
    Except PyError PyValue :=
  match result with
  | Except.error _ =>
      Except.error (PyError.unboundLocalError
        ("cannot access local variable \x27response\x27 " ++
         "where it is not associated with a value"))
  | Except.ok response =>
      if response.status_code ≠ 200 then
        Except.error (PyError.httpError
          ("Запрос к эндпоинту " ++ ENDPOINT ++ " " ++
           "вернул статус-код: " ++ toString response.status_code ++ "," ++
           "причина: " ++ response.reason ++ "," ++
           "с текстом " ++ response.text))
      else
        Except.ok response.json

/-- `check_response` from `homework.py`: a non-dict raises `TypeError`;
a dict whose `homeworks` value is missing (i.e. `.get` returns `None`)
raises `EmptyResponseFromAPI`; a non-list `homeworks` value raises
`TypeError`; otherwise the homeworks list is returned. -/
def check_response (response : PyValue) : Except PyError (List PyValue) :=
  match response with
  | PyValue.dict entries =>
      match pyGetOrNone entries "homeworks" with
      | PyValue.null =>
          Except.error (PyError.emptyResponseFromAPI
            "Отсутствует ключ homeworks в ответе API")
      | PyValue.list homeworks => Except.ok homeworks
      | _ =>
          Except.error (PyError.typeError
            "Данные под ключом homeworks приходят не в виде списка")
  | other =>
      Except.error (PyError.typeError
        ("Структура данных " ++ pyTypeName other ++ " не является dict"))

/-- `parse_status` from `homework.py`: first `homework.get("status")`
is tested for membership in `HOMEWORK_VERDICTS` (raising
`BadStatusException` otherwise), then `homework["homework_name"]` is
read (a missing key raises `KeyError`), and the message is composed.
A non-dict argument would fail the attribute lookup `homework.get`. -/
def parse_status (homework : PyValue) : Except PyError String :=
  match homework with
  | PyValue.dict entries =>
      let homework_status := pyGetOrNone entries "status"
      match homework_status with
      | PyValue.str s =>
          match HOMEWORK_VERDICTS.lookup s with
          | Option.some verdict =>
              match pyGet entries "homework_name" with
              | Option.some homework_name =>
                  Except.ok ("Изменился статус проверки работы \"" ++
                    pyStr homework_name ++ "\". " ++ verdict)
              | Option.none =>
                  Except.error (PyError.keyError
                    "Ошибка в структуре статуса домашней работы: \x27homework_name\x27")
          | Option.none =>
              Except.error (PyError.badStatusException
                ("Полученный статус " ++ s ++
                 " отсутствует в словаре вердиктов"))
      | other =>
          Except.error (PyError.badStatusException
            ("Полученный статус " ++ pyStr other ++
             " отсутствует в словаре вердиктов"))
  | other =>
      Except.error (PyError.attributeError
        ("\x27" ++ pyTypeName other ++ "\x27 object has no attribute \x27get\x27"))

/-- The mutable state of the loop in `main`: `previous_message` (last
message recorded for deduplication, the empty string initially) and `timestamp`
(the `from_date` value; an `int` initially, but reassigned from
`response.get("time")`, so in general any Python value). -/
structure BotState where
  previous_message : String
  timestamp : PyValue

/-- The external effects feeding one iteration of the loop:
the outcome of `requests.get` and the outcome of `bot.send_message`
(`Except.error` = the Telegram library raised `TelegramError`). -/
structure StepInput where
  apiResult : Except String Response
  sendOutcome : Except String Unit

/-- What one iteration of the loop produced: the new state, the
message successfully delivered to the chat (if any), and whether the
iteration reached the `finally: time.sleep(RETRY_PERIOD)` stage. -/
structure StepResult where
  state : BotState
  delivered : Option String
  slept : Bool

/-- The guarded-notification pattern used twice in `main` (for the
empty-homeworks message and in the exception handler):
`if message != previous_message: if send_message(...): previous_message = message`.
The timestamp is untouched. -/
def notifyIfChanged (st : BotState) (sendOk : Bool) (message : String) :
    BotState × Option String :=
  if message ≠ st.previous_message then
    if sendOk then
      ({ st with previous_message := message }, Option.some message)
    else
      (st, Option.none)
  else
    (st, Option.none)

/-- The `try` block of the loop body of `main`.  An `Except.error` is an
exception escaping the block to the `except Exception` handler. -/
def mainStepTry (st : BotState) (inp : StepInput) : Except PyError StepResult :=
  match get_api_answer st.timestamp inp.apiResult with
  | Except.error e => Except.error e
  | Except.ok response =>
      match check_response response with
      | Except.error e => Except.error e
      | Except.ok homeworks =>
          if homeworks.length = 0 then
            let message := "Ошибка! В полученном от API ответе нет " ++
              "информации о домашней работе."
            let (st2, delivered) :=
              notifyIfChanged st (send_message inp.sendOutcome) message
            Except.ok ⟨st2, delivered, true⟩
          else
            match parse_status (homeworks.headD PyValue.null) with
            | Except.error e => Except.error e
            | Except.ok message =>
                -- timestamp = 0
                if message ≠ st.previous_message then
                  -- the result of send_message is ignored here:
                  -- previous_message and timestamp are updated either way
                  Except.ok ⟨⟨message, pyDictGet response "time"⟩,
                    if send_message inp.sendOutcome then Option.some message
                    else Option.none,
                    true⟩
                else
                  Except.ok ⟨⟨st.previous_message, PyValue.int 0⟩,
                    Option.none, true⟩

/-- The `except Exception as error` handler of the loop body of `main`. -/
def exceptHandler (st : BotState) (inp : StepInput) (error : PyError) : StepResult :=
  let message := "Сбой в работе программы: " ++ pyErrStr error
  let (st2, delivered) := notifyIfChanged st (send_message inp.sendOutcome) message
  ⟨st2, delivered, true⟩

/-- One full iteration of the `while True` loop of `main`: the `try` block,
with every escaping exception caught by the handler; the `finally`
sleep is reached on every path. -/
def mainStep (st : BotState) (inp : StepInput) : StepResult :=
  match mainStepTry st inp with
  | Except.ok r => r
  | Except.error e => exceptHandler st inp e

/-- The message an iteration composes for the deduplication check.
It depends only on the inputs of the iteration, never on the loop state:
the success message from `parse_status`, the fixed complaint for an
empty homeworks list, or the generic failure message built from the
escaping exception. -/
def composedMessage (inp : StepInput) : String :=
  match get_api_answer PyValue.null inp.apiResult with
  | Except.error e => "Сбой в работе программы: " ++ pyErrStr e
  | Except.ok response =>
      match check_response response with
      | Except.error e => "Сбой в работе программы: " ++ pyErrStr e
      | Except.ok homeworks =>
          if homeworks.length = 0 then
            "Ошибка! В полученном от API ответе нет " ++
              "информации о домашней работе."
          else
            match parse_status (homeworks.headD PyValue.null) with
            | Except.error e => "Сбой в работе программы: " ++ pyErrStr e
            | Except.ok message => message

/-- The start of `main` before the loop: `check_tokens()` runs first;
only if it succeeds is the bot constructed and the loop state
initialised (`previous_message` empty, `timestamp = int(time.time())`).
All network traffic happens inside the loop, so a token failure
happens before any network call. -/
def main_init (practicumToken telegramToken telegramChatId : Option String)
    (now : Int) : Except PyError BotState :=
  match check_tokens practicumToken telegramToken telegramChatId with
  | Except.error e => Except.error e
  | Except.ok _ => Except.ok ⟨"", PyValue.int now⟩

/-- Fixture: a homework entry with name `X` and status `approved`. -/
def hwApproved : PyValue :=
  PyValue.dict [("homework_name", PyValue.str "X"), ("status", PyValue.str "approved")]

/-- Fixture: the message `parse_status` composes for `hwApproved`. -/
def msgApproved : String :=
  "Изменился статус проверки работы \"X\". Работа проверена: ревьюеру всё понравилось. Ура!"

/-- Fixture: a 200 response whose body holds one homework (`hwApproved`)
and a `current_date` field. -/
def respOk : Response :=
  ⟨200, "OK", "",
   PyValue.dict [("homeworks", PyValue.list [hwApproved]),
                 ("current_date", PyValue.int 200)]⟩

/-- Fixture: a 200 response whose body holds an empty homeworks list. -/
def respEmpty : Response :=
  ⟨200, "OK", "",
   PyValue.dict [("homeworks", PyValue.list []),
                 ("current_date", PyValue.int 200)]⟩

/-- Fixture: the complaint `main` composes for an empty homeworks list. -/
def emptyMsg : String :=
  "Ошибка! В полученном от API ответе нет информации о домашней работе."

/-- Fixture: a 404 response. -/
def resp404 : Response := ⟨404, "Not Found", "page not found", PyValue.null⟩

/-- `get_api_answer` never reads its `timestamp` argument (the
timestamp only goes into the request parameters). -/
theorem get_api_answer_ignores_timestamp (ts1 ts2 : PyValue)
    (r : Except String Response) :
    get_api_answer ts1 r = get_api_answer ts2 r := rfl

/-- Claim C1: for every homework mapping whose `status` value is a string
`s` mapped to verdict `v` by `HOMEWORK_VERDICTS` and whose
`homework_name` value is a string `n`, `parse_status` returns exactly
the sentence `Изменился статус проверки работы "n".`, a space, and `v`. -/
theorem parse_status_verdict_message (entries : List (String × PyValue))
    (n s v : String)
    (hs : pyGet entries "status" = Option.some (PyValue.str s))
    (hv : HOMEWORK_VERDICTS.lookup s = Option.some v)
    (hn : pyGet entries "homework_name" = Option.some (PyValue.str n)) :
    parse_status (PyValue.dict entries) =
      Except.ok ("Изменился статус проверки работы \"" ++ n ++ "\". " ++ v) := by
  simp [parse_status, pyGetOrNone, hs, hv, hn, pyStr]

/-- Witness for C1: the entry with name `X` and status `approved`
produces exactly the expected Russian sentence. -/
theorem parse_status_verdict_message_witness :
    parse_status hwApproved = Except.ok msgApproved := by
  exact parse_status_verdict_message
    [("homework_name", PyValue.str "X"), ("status", PyValue.str "approved")]
    "X" "approved" "Работа проверена: ревьюеру всё понравилось. Ура!"
    rfl rfl rfl

/-- Claim C10: `parse_status` checks the `status` field before the
`homework_name` field.  A mapping with neither key raises
`BadStatusException` (the unknown-status error, about the status `None`),
not `KeyError`; and `KeyError` is raised only when the status value is a
recognised verdict key while `homework_name` is absent. -/
theorem parse_status_checks_status_first :
    (∀ entries : List (String × PyValue),
       pyGet entries "status" = Option.none →
       pyGet entries "homework_name" = Option.none →
       parse_status (PyValue.dict entries) =
         Except.error (PyError.badStatusException
           "Полученный статус None отсутствует в словаре вердиктов")) ∧
    (∀ entries : List (String × PyValue), ∀ m : String,
       parse_status (PyValue.dict entries) = Except.error (PyError.keyError m) →
       (∃ s : String, pyGetOrNone entries "status" = PyValue.str s ∧
          (HOMEWORK_VERDICTS.lookup s).isSome) ∧
       pyGet entries "homework_name" = Option.none) := by
  constructor
  · intro entries hs hn
    simp [parse_status, pyGetOrNone, hs, pyStr, pyRepr]
  · intro entries m h
    rcases hs : pyGet entries "status" with _ | sv
    · simp [parse_status, pyGetOrNone, hs] at h
    · cases sv with
      | str s =>
          rcases hv : HOMEWORK_VERDICTS.lookup s with _ | v
          · simp [parse_status, pyGetOrNone, hs, hv] at h
          · rcases hn : pyGet entries "homework_name" with _ | nm
            · exact ⟨⟨s, by simp [pyGetOrNone, hs], by simp [hv]⟩, rfl⟩
            · simp [parse_status, pyGetOrNone, hs, hv, hn] at h
      | null => simp [parse_status, pyGetOrNone, hs] at h
      | bool b => simp [parse_status, pyGetOrNone, hs] at h
      | int n => simp [parse_status, pyGetOrNone, hs] at h
      | list xs => simp [parse_status, pyGetOrNone, hs] at h
      | dict xs => simp [parse_status, pyGetOrNone, hs] at h

/-- Witness for C10: the empty mapping (lacking both keys) raises the
unknown-status error, and the mapping holding only `status: approved`
raises the `KeyError` with the recognised status. -/
theorem parse_status_checks_status_first_witness :
    parse_status (PyValue.dict []) =
      Except.error (PyError.badStatusException
        "Полученный статус None отсутствует в словаре вердиктов") ∧
    ((∃ s : String,
        pyGetOrNone [("status", PyValue.str "approved")] "status" = PyValue.str s ∧
        (HOMEWORK_VERDICTS.lookup s).isSome) ∧
      pyGet [("status", PyValue.str "approved")] "homework_name" = Option.none) := by
  refine ⟨parse_status_checks_status_first.1 [] rfl rfl, ?_⟩
  exact parse_status_checks_status_first.2 [("status", PyValue.str "approved")]
    "Ошибка в структуре статуса домашней работы: \x27homework_name\x27" rfl

/-- Counterexample to Claim C9: the claim says a mapping in which the
`homeworks` field exists but is not a list raises a type error, and
that the missing-data error is for mappings lacking the field.  But
for `homeworks` bound to `None`, the field exists (second conjunct)
and is not a list, yet the code raises `EmptyResponseFromAPI`, because
it tests `response.get("homeworks") is None`. -/
theorem check_response_null_homeworks_counterexample :
    check_response (PyValue.dict [("homeworks", PyValue.null)]) =
      Except.error (PyError.emptyResponseFromAPI
        "Отсутствует ключ homeworks в ответе API") ∧
    pyGet [("homeworks", PyValue.null)] "homeworks" = Option.some PyValue.null := by
  exact ⟨rfl, rfl⟩

/-- Claim C9 (amended): `check_response` raises a type error on a
non-mapping; raises `EmptyResponseFromAPI` when the `homeworks` field
is missing or `None`; raises a type error when the field holds a value
that is neither `None` nor a list; and returns the homeworks list
unchanged otherwise. -/
theorem check_response_cases :
    (∀ v : PyValue, (∀ xs, v ≠ PyValue.dict xs) →
       check_response v = Except.error (PyError.typeError
         ("Структура данных " ++ pyTypeName v ++ " не является dict"))) ∧
    (∀ entries : List (String × PyValue),
       pyGetOrNone entries "homeworks" = PyValue.null →
       check_response (PyValue.dict entries) =
         Except.error (PyError.emptyResponseFromAPI
           "Отсутствует ключ homeworks в ответе API")) ∧
    (∀ entries : List (String × PyValue), ∀ hs : List PyValue,
       pyGetOrNone entries "homeworks" = PyValue.list hs →
       check_response (PyValue.dict entries) = Except.ok hs) ∧
    (∀ entries : List (String × PyValue),
       pyGetOrNone entries "homeworks" ≠ PyValue.null →
       (∀ hs : List PyValue, pyGetOrNone entries "homeworks" ≠ PyValue.list hs) →
       check_response (PyValue.dict entries) =
         Except.error (PyError.typeError
           "Данные под ключом homeworks приходят не в виде списка")) := by
  refine ⟨?_, ?_, ?_, ?_⟩
  · intro v hv
    cases v with
    | dict xs => exact absurd rfl (hv xs)
    | null => rfl
    | bool b => rfl
    | int n => rfl
    | str s => rfl
    | list xs => rfl
  · intro entries h
    simp [check_response, h]
  · intro entries hs h
    simp [check_response, h]
  · intro entries hnull hlist
    rcases h : pyGetOrNone entries "homeworks" with _ | b | n | s | xs | xs
    · exact absurd h hnull
    · simp [check_response, h]
    · simp [check_response, h]
    · simp [check_response, h]
    · exact absurd h (hlist xs)
    · simp [check_response, h]

/-- Witness for C9 (amended): each of the four behaviours on a concrete
input. -/
theorem check_response_cases_witness :
    check_response (PyValue.int 3) =
      Except.error (PyError.typeError
        "Структура данных <class \x27int\x27> не является dict") ∧
    check_response (PyValue.dict []) =
      Except.error (PyError.emptyResponseFromAPI
        "Отсутствует ключ homeworks в ответе API") ∧
    check_response (PyValue.dict [("homeworks", PyValue.list [])]) =
      Except.ok [] ∧
    check_response (PyValue.dict [("homeworks", PyValue.str "x")]) =
      Except.error (PyError.typeError
        "Данные под ключом homeworks приходят не в виде списка") := by
  refine ⟨?_, ?_, ?_, ?_⟩
  · exact check_response_cases.1 (PyValue.int 3) (fun xs h => PyValue.noConfusion h)
  · exact check_response_cases.2.1 [] rfl
  · exact check_response_cases.2.2.1 [("homeworks", PyValue.list [])] [] rfl
  · exact check_response_cases.2.2.2 [("homeworks", PyValue.str "x")]
      (by simp [pyGetOrNone, pyGet]) (by simp [pyGetOrNone, pyGet])

/-- Counterexample to Claim C4: the claim says a credential triple with
an empty-string value makes startup fail, but `check_tokens` tests only
`token is None`, so a triple holding an empty string passes. -/
theorem check_tokens_empty_string_counterexample :
    check_tokens (Option.some "") (Option.some "t") (Option.some "c") =
      Except.ok () := rfl

/-- Claim C4 (amended): for every credential triple in which at least
one variable is missing (unset, i.e. `None`), `check_tokens` raises
`BadTokensException`, and `main` fails at startup before the loop —
which contains all network calls — is entered.  Empty strings are not
detected. -/
theorem check_tokens_missing_env (p t c : Option String) (now : Int)
    (h : p = Option.none ∨ t = Option.none ∨ c = Option.none) :
    check_tokens p t c =
      Except.error (PyError.badTokensException "Отсутствует переменная окружения") ∧
    main_init p t c now =
      Except.error (PyError.badTokensException "Отсутствует переменная окружения") := by
  have hce : check_tokens p t c =
      Except.error (PyError.badTokensException "Отсутствует переменная окружения") := by
    rcases h with h | h | h <;> subst h <;> simp [check_tokens]
  exact ⟨hce, by simp [main_init, hce]⟩

/-- Witness for C4 (amended): an unset API token fails startup. -/
theorem check_tokens_missing_env_witness :
    check_tokens Option.none (Option.some "a") (Option.some "b") =
      Except.error (PyError.badTokensException "Отсутствует переменная окружения") ∧
    main_init Option.none (Option.some "a") (Option.some "b") 5 =
      Except.error (PyError.badTokensException "Отсутствует переменная окружения") := by
  exact check_tokens_missing_env Option.none (Option.some "a") (Option.some "b") 5
    (Or.inl rfl)

/-- Claim C5 evaluated on the code: when `requests.get` raises a request
exception, `get_api_answer` does not raise the intended
`ConnectionError`: the `finally` block reads the local variable
`response`, which was never bound, so an `UnboundLocalError` replaces
the `ConnectionError` raised by the `except` clause. -/
theorem get_api_answer_network_failure :
    get_api_answer (PyValue.int 0) (Except.error "timeout") =
      Except.error (PyError.unboundLocalError
        ("cannot access local variable \x27response\x27 " ++
         "where it is not associated with a value")) ∧
    ∀ m : String,
      get_api_answer (PyValue.int 0) (Except.error "timeout") ≠
        Except.error (PyError.connectionError m) := by
  refine ⟨rfl, fun m h => ?_⟩
  simp [get_api_answer] at h

/-- Claim C8: a response with a non-2xx (here: non-200) status makes
`get_api_answer` raise the `HTTPError` carrying the status code,
reason and body text; and the whole `try` block of a loop iteration
exits with that same error, so `check_response` and `parse_status`
are never reached for that response. -/
theorem get_api_answer_bad_status (timestamp : PyValue) (resp : Response)
    (h : resp.status_code ≠ 200) :
    get_api_answer timestamp (Except.ok resp) =
      Except.error (PyError.httpError
        ("Запрос к эндпоинту " ++ ENDPOINT ++ " " ++
         "вернул статус-код: " ++ toString resp.status_code ++ "," ++
         "причина: " ++ resp.reason ++ "," ++
         "с текстом " ++ resp.text)) ∧
    (∀ st : BotState, ∀ send : Except String Unit,
       mainStepTry st ⟨Except.ok resp, send⟩ =
         Except.error (PyError.httpError
           ("Запрос к эндпоинту " ++ ENDPOINT ++ " " ++
            "вернул статус-код: " ++ toString resp.status_code ++ "," ++
            "причина: " ++ resp.reason ++ "," ++
            "с текстом " ++ resp.text))) := by
  have hg : get_api_answer timestamp (Except.ok resp) =
      Except.error (PyError.httpError
        ("Запрос к эндпоинту " ++ ENDPOINT ++ " " ++
         "вернул статус-код: " ++ toString resp.status_code ++ "," ++
         "причина: " ++ resp.reason ++ "," ++
         "с текстом " ++ resp.text)) := by
    simp [get_api_answer, h]
  refine ⟨hg, fun st send => ?_⟩
  simp only [mainStepTry]
  rw [show get_api_answer st.timestamp (Except.ok resp) =
        get_api_answer timestamp (Except.ok resp) from rfl, hg]

/-- Witness for C8: a 404 response raises the `HTTPError` with code,
reason and body, and aborts the `try` block of the iteration. -/
theorem get_api_answer_bad_status_witness :
    get_api_answer (PyValue.int 0) (Except.ok resp404) =
      Except.error (PyError.httpError
        ("Запрос к эндпоинту https://practicum.yandex.ru/api/user_api/homework_statuses/ " ++
         "вернул статус-код: 404," ++
         "причина: Not Found," ++
         "с текстом page not found")) ∧
    mainStepTry ⟨"", PyValue.int 0⟩ ⟨Except.ok resp404, Except.ok ()⟩ =
      Except.error (PyError.httpError
        ("Запрос к эндпоинту https://practicum.yandex.ru/api/user_api/homework_statuses/ " ++
         "вернул статус-код: 404," ++
         "причина: Not Found," ++
         "с текстом page not found")) := by
  have h := get_api_answer_bad_status (PyValue.int 0) resp404 (by decide)
  exact ⟨h.1, h.2 ⟨"", PyValue.int 0⟩ (Except.ok ())⟩

/-- The delivered message of the guarded-notification pattern:
`some message` exactly when the message differs from the stored one
and the send succeeded. -/
theorem notifyIfChanged_delivered (st : BotState) (sendOk : Bool) (message : String) :
    (notifyIfChanged st sendOk message).2 =
      (if message ≠ st.previous_message ∧ sendOk = true
       then Option.some message else Option.none) := by
  unfold notifyIfChanged
  by_cases h : message = st.previous_message <;> cases sendOk <;> simp [h]

/-- The guarded-notification pattern either delivers nothing or leaves
the attempted message stored. -/
theorem notifyIfChanged_cases (st : BotState) (sendOk : Bool) (message : String) :
    (notifyIfChanged st sendOk message).2 = Option.none ∨
    (notifyIfChanged st sendOk message).1.previous_message = message := by
  unfold notifyIfChanged
  by_cases h : message = st.previous_message <;> cases sendOk <;> simp [h]

/-- The guarded-notification pattern never touches the timestamp. -/
theorem notifyIfChanged_timestamp (st : BotState) (sendOk : Bool) (message : String) :
    (notifyIfChanged st sendOk message).1.timestamp = st.timestamp := by
  unfold notifyIfChanged
  by_cases hm : message = st.previous_message <;> cases sendOk <;> simp [hm]

/-- In every branch of a loop iteration the delivered message is the
composed message, and it is delivered exactly when it differs from the
stored `previous_message` and the Telegram send succeeds. -/
theorem mainStep_delivered_eq (st : BotState) (inp : StepInput) :
    (mainStep st inp).delivered =
      (if composedMessage inp ≠ st.previous_message ∧
          send_message inp.sendOutcome = true
       then Option.some (composedMessage inp) else Option.none) := by
  simp only [mainStep, mainStepTry, composedMessage,
    get_api_answer_ignores_timestamp PyValue.null st.timestamp inp.apiResult]
  rcases hA : get_api_answer st.timestamp inp.apiResult with e | response
  · simp [hA, exceptHandler, notifyIfChanged_delivered]
  · rcases hC : check_response response with e | homeworks
    · simp [hA, hC, exceptHandler, notifyIfChanged_delivered]
    · by_cases hLen : homeworks.length = 0
      · simp [hA, hC, hLen, notifyIfChanged_delivered]
      · rcases hP : parse_status (homeworks.head?.getD PyValue.null) with e | message
        · simp [hA, hC, hP, hLen, exceptHandler, notifyIfChanged_delivered]
        · by_cases hm : message = st.previous_message
          · simp [hA, hC, hP, hLen, hm]
          · cases hsend : send_message inp.sendOutcome <;>
              simp [hA, hC, hP, hLen, hm, hsend]

/-- When a loop iteration delivered `m`, the stored `previous_message`
afterwards is `m` (in the changed-status branch it is stored even
without a delivery, but a delivery always stores it). -/
theorem mainStep_prev_eq (st : BotState) (inp : StepInput) :
    (mainStep st inp).delivered = Option.none ∨
    (mainStep st inp).state.previous_message = composedMessage inp := by
  simp only [mainStep, mainStepTry, composedMessage,
    get_api_answer_ignores_timestamp PyValue.null st.timestamp inp.apiResult]
  rcases hA : get_api_answer st.timestamp inp.apiResult with e | response
  · rcases notifyIfChanged_cases st (send_message inp.sendOutcome)
        ("Сбой в работе программы: " ++ pyErrStr e) with hn | hn
    · left; simp [hA, exceptHandler, hn]
    · right; simp [hA, exceptHandler, hn]
  · rcases hC : check_response response with e | homeworks
    · rcases notifyIfChanged_cases st (send_message inp.sendOutcome)
          ("Сбой в работе программы: " ++ pyErrStr e) with hn | hn
      · left; simp [hA, hC, exceptHandler, hn]
      · right; simp [hA, hC, exceptHandler, hn]
    · by_cases hLen : homeworks.length = 0
      · rcases notifyIfChanged_cases st (send_message inp.sendOutcome)
            "Ошибка! В полученном от API ответе нет информации о домашней работе."
            with hn | hn
        · left; simp [hA, hC, hLen, hn]
        · right; simp [hA, hC, hLen, hn]
      · rcases hP : parse_status (homeworks.head?.getD PyValue.null) with e | message
        · rcases notifyIfChanged_cases st (send_message inp.sendOutcome)
              ("Сбой в работе программы: " ++ pyErrStr e) with hn | hn
          · left; simp [hA, hC, hP, hLen, exceptHandler, hn]
          · right; simp [hA, hC, hP, hLen, exceptHandler, hn]
        · by_cases hm : message = st.previous_message
          · left; simp [hA, hC, hP, hLen, hm]
          · right; simp [hA, hC, hP, hLen, hm]

/-- When a loop iteration delivered `m`, the stored `previous_message`
afterwards is `m`. -/
theorem mainStep_prev_of_delivered (st : BotState) (inp : StepInput) (m : String)
    (h : (mainStep st inp).delivered = Option.some m) :
    (mainStep st inp).state.previous_message = m := by
  rcases mainStep_prev_eq st inp with hnone | hprev
  · rw [hnone] at h; cases h
  · rw [hprev]
    have hd := mainStep_delivered_eq st inp
    rw [h] at hd
    by_cases hc : composedMessage inp ≠ st.previous_message ∧
        send_message inp.sendOutcome = true
    · rw [if_pos hc] at hd
      exact (Option.some.inj hd).symm
    · rw [if_neg hc] at hd; cases hd

/-- Claim C2 evaluated on the code: the poll timestamp is not
monotonically advanced.  In full generality over states and inputs:
in every iteration that parses a status message equal to the stored
one (a no-change cycle) the loop body has already overwritten the
timestamp with `0` — a decrease from any positive `int(time.time())`
start value; and in every iteration that parses a new message the
timestamp is set to `response.get("time")`, a key the API response
does not carry (yielding `None`), although the `current_date` field
the spec names is present.  The closed conjuncts instantiate both at
the fixture response: the timestamp becomes `None` there, `time` is
absent, `current_date` is `200`, and `0 < 100` witnesses the
decrease from the start value `100` used by the witness. -/
theorem main_timestamp_not_monotone :
    (∀ st : BotState, ∀ inp : StepInput,
       ∀ response : PyValue, ∀ homeworks : List PyValue, ∀ message : String,
       get_api_answer st.timestamp inp.apiResult = Except.ok response →
       check_response response = Except.ok homeworks →
       homeworks.length ≠ 0 →
       parse_status (homeworks.headD PyValue.null) = Except.ok message →
       message = st.previous_message →
       (mainStep st inp).state.timestamp = PyValue.int 0) ∧
    (∀ st : BotState, ∀ inp : StepInput,
       ∀ response : PyValue, ∀ homeworks : List PyValue, ∀ message : String,
       get_api_answer st.timestamp inp.apiResult = Except.ok response →
       check_response response = Except.ok homeworks →
       homeworks.length ≠ 0 →
       parse_status (homeworks.headD PyValue.null) = Except.ok message →
       message ≠ st.previous_message →
       (mainStep st inp).state.timestamp = pyDictGet response "time") ∧
    (mainStep ⟨"", PyValue.int 100⟩
        ⟨Except.ok respOk, Except.ok ()⟩).state.timestamp = PyValue.null ∧
    pyDictGet respOk.json "time" = PyValue.null ∧
    pyDictGet respOk.json "current_date" = PyValue.int 200 ∧
    (0 : Int) < 100 := by
  refine ⟨?_, ?_, rfl, rfl, rfl, by norm_num⟩
  · intro st inp response homeworks message hA hC hLen hP hm
    have hP2 : parse_status (homeworks.head?.getD PyValue.null) = Except.ok message := by
      rw [← List.headD_eq_head?]; exact hP
    simp [mainStep, mainStepTry, hA, hC, hLen, hP2, hm]
  · intro st inp response homeworks message hA hC hLen hP hm
    have hP2 : parse_status (homeworks.head?.getD PyValue.null) = Except.ok message := by
      rw [← List.headD_eq_head?]; exact hP
    simp [mainStep, mainStepTry, hA, hC, hLen, hP2, hm]

/-- Witness for C2: at the fixture response (one approved homework,
`current_date` present, `time` absent) a no-change cycle drops the
timestamp from `100` to `0`, and a changed-message cycle sets it to
`response.get("time")`, which is `None`. -/
theorem main_timestamp_not_monotone_witness :
    (mainStep ⟨msgApproved, PyValue.int 100⟩
        ⟨Except.ok respOk, Except.ok ()⟩).state.timestamp = PyValue.int 0 ∧
    (mainStep ⟨"", PyValue.int 100⟩
        ⟨Except.ok respOk, Except.ok ()⟩).state.timestamp
      = pyDictGet respOk.json "time" := by
  refine ⟨?_, ?_⟩
  · exact main_timestamp_not_monotone.1
      ⟨msgApproved, PyValue.int 100⟩ ⟨Except.ok respOk, Except.ok ()⟩
      respOk.json [hwApproved] msgApproved rfl rfl (by decide) rfl rfl
  · exact main_timestamp_not_monotone.2.1
      ⟨"", PyValue.int 100⟩ ⟨Except.ok respOk, Except.ok ()⟩
      respOk.json [hwApproved] msgApproved rfl rfl (by decide) rfl (by decide)

/-- Claim C3 evaluated on the code: in the changed-status branch the
return value of `send_message` is ignored.  With the Telegram send
failing, nothing is delivered, yet `previous_message` is set to the
composed message and the timestamp is overwritten, so the pending
update is applied despite the delivery failure (and the notification
is permanently suppressed by deduplication). -/
theorem main_state_updated_despite_failed_send :
    (mainStep ⟨"", PyValue.int 100⟩
        ⟨Except.ok respOk, Except.error "TelegramError"⟩).delivered = Option.none ∧
    (mainStep ⟨"", PyValue.int 100⟩
        ⟨Except.ok respOk, Except.error "TelegramError"⟩).state.previous_message
      = msgApproved ∧
    (mainStep ⟨"", PyValue.int 100⟩
        ⟨Except.ok respOk, Except.error "TelegramError"⟩).state.timestamp
      = PyValue.null := by
  refine ⟨rfl, rfl, rfl⟩

/-- Counterexample to Claim C6: a three-iteration run in which the
empty-homeworks complaint is delivered (iteration 1), a status message
is composed but its delivery fails while `previous_message` is still
overwritten (iteration 2), and then the empty-homeworks complaint is
delivered again (iteration 3) — a message equal to the immediately
preceding delivered message, which the claim forbids. -/
theorem main_dedup_counterexample :
    (mainStep ⟨"", PyValue.int 1⟩
        ⟨Except.ok respEmpty, Except.ok ()⟩).delivered = Option.some emptyMsg ∧
    (mainStep (mainStep ⟨"", PyValue.int 1⟩
        ⟨Except.ok respEmpty, Except.ok ()⟩).state
        ⟨Except.ok respOk, Except.error "TelegramError"⟩).delivered = Option.none ∧
    (mainStep (mainStep (mainStep ⟨"", PyValue.int 1⟩
        ⟨Except.ok respEmpty, Except.ok ()⟩).state
        ⟨Except.ok respOk, Except.error "TelegramError"⟩).state
        ⟨Except.ok respEmpty, Except.ok ()⟩).delivered = Option.some emptyMsg := by
  refine ⟨rfl, rfl, rfl⟩

/-- Claim C6 (amended): a message is delivered only if it differs from
the stored `previous_message` (which equals the last delivered message
whenever all attempted deliveries succeed); consequently, in any pair
of consecutive iterations composing the same message, the second
iteration delivers nothing once the first has delivered — the message
is delivered at most once across such a pair. -/
theorem main_dedup_invariant :
    (∀ st : BotState, ∀ inp : StepInput, ∀ m : String,
       (mainStep st inp).delivered = Option.some m →
       m ≠ st.previous_message ∧
       (mainStep st inp).state.previous_message = m) ∧
    (∀ st : BotState, ∀ inp1 inp2 : StepInput,
       composedMessage inp1 = composedMessage inp2 →
       (mainStep st inp1).delivered.isSome →
       (mainStep (mainStep st inp1).state inp2).delivered = Option.none) := by
  have hONLY : ∀ st : BotState, ∀ inp : StepInput, ∀ m : String,
      (mainStep st inp).delivered = Option.some m →
      m ≠ st.previous_message ∧ m = composedMessage inp := by
    intro st inp m h
    have hd := mainStep_delivered_eq st inp
    rw [h] at hd
    by_cases hc : composedMessage inp ≠ st.previous_message ∧
        send_message inp.sendOutcome = true
    · rw [if_pos hc] at hd
      have hm : m = composedMessage inp := Option.some.inj hd
      exact ⟨hm ▸ hc.1, hm⟩
    · rw [if_neg hc] at hd; cases hd
  constructor
  · intro st inp m h
    exact ⟨(hONLY st inp m h).1, mainStep_prev_of_delivered st inp m h⟩
  · intro st inp1 inp2 hcomp hs
    rcases Option.isSome_iff_exists.mp hs with ⟨m, hm⟩
    have h1 := hONLY st inp1 m hm
    have hprev : (mainStep st inp1).state.previous_message = m :=
      mainStep_prev_of_delivered st inp1 m hm
    rw [mainStep_delivered_eq (mainStep st inp1).state inp2, if_neg]
    intro hcontra
    apply hcontra.1
    rw [hprev, ← hcomp, ← h1.2]

/-- Witness for C6 (amended): after the empty-homeworks complaint is
delivered, a second iteration composing the same message delivers
nothing. -/
theorem main_dedup_invariant_witness :
    (mainStep (mainStep ⟨"", PyValue.int 1⟩
        ⟨Except.ok respEmpty, Except.ok ()⟩).state
        ⟨Except.ok respEmpty, Except.ok ()⟩).delivered = Option.none := by
  exact main_dedup_invariant.2 ⟨"", PyValue.int 1⟩
    ⟨Except.ok respEmpty, Except.ok ()⟩ ⟨Except.ok respEmpty, Except.ok ()⟩
    rfl (by rfl)

/-- Claim C7: every exception escaping the fetch/validate/parse stages
of an iteration is caught at the outer boundary of the loop and converted
into the generic failure message, which is notified subject to the
deduplication rule; the loop state otherwise survives (the
timestamp is untouched) and the sleep stage is reached, so the process
does not crash; and a Telegram failure inside the notifier makes
`send_message` return `false` instead of raising. -/
theorem main_loop_catches_exceptions (st : BotState) (inp : StepInput) (e : PyError)
    (h : mainStepTry st inp = Except.error e) :
    (mainStep st inp).slept = true ∧
    (mainStep st inp).state.timestamp = st.timestamp ∧
    (mainStep st inp).delivered =
      (if ("Сбой в работе программы: " ++ pyErrStr e) ≠ st.previous_message ∧
          send_message inp.sendOutcome = true
       then Option.some ("Сбой в работе программы: " ++ pyErrStr e)
       else Option.none) ∧
    (∀ err : String, send_message (Except.error err) = false) := by
  have hm : mainStep st inp = exceptHandler st inp e := by
    simp [mainStep, h]
  refine ⟨?_, ?_, ?_, fun err => rfl⟩
  · rw [hm]; rfl
  · rw [hm]
    simp only [exceptHandler]
    exact notifyIfChanged_timestamp st (send_message inp.sendOutcome) _
  · rw [hm]
    simp only [exceptHandler]
    exact notifyIfChanged_delivered st (send_message inp.sendOutcome) _

/-- Witness for C7: a network failure (which surfaces as the
`UnboundLocalError` of `get_api_answer`) is caught; the iteration
sleeps, keeps its timestamp, and delivers the generic failure
message. -/
theorem main_loop_catches_exceptions_witness :
    (mainStep ⟨"", PyValue.int 7⟩
        ⟨Except.error "DNS failure", Except.ok ()⟩).slept = true ∧
    (mainStep ⟨"", PyValue.int 7⟩
        ⟨Except.error "DNS failure", Except.ok ()⟩).state.timestamp
      = PyValue.int 7 ∧
    send_message (Except.error "TelegramError") = false := by
  have h := main_loop_catches_exceptions ⟨"", PyValue.int 7⟩
    ⟨Except.error "DNS failure", Except.ok ()⟩
    (PyError.unboundLocalError
      ("cannot access local variable \x27response\x27 " ++
       "where it is not associated with a value"))
    rfl
  exact ⟨h.1, h.2.1, h.2.2.2 "TelegramError"⟩

end HomeworkBot
